import Mathlib

/-!
Shallow embedding of `src/wa-monitor/index.js` (companylistbot WhatsApp
monitor): the per-identity connection lifecycle supervisor and the
message filter/forward pipeline, with theorems checking the
natural-language specification against it.
-/

namespace WaMonitor

/-- Connection status strings actually assigned in the source
(`'disconnected'`, `'waiting_qr'`, `'connected'`); `connecting` is included
in the type because the specification names it, although the source never
assigns it. -/
inductive Status where
  | disconnected
  | connecting
  | waiting_qr
  | connected
deriving DecidableEq, Repr

/-- One entry of the global table `connections[botId] = { socket, status, qr }`
(line 36 / 49).  `socket` is the transport handle (modelled by a numeric id),
`qr` the base64 QR image. -/
structure ConnEntry where
  socket : Option Nat
  status : Status
  qr : Option String
deriving DecidableEq, Repr

/-- Whole model state for a single identity (botId): the `connections` entry
(absent = key not in the table), whether the persisted session directory
`AUTH_DIR/bot_<id>` exists on disk, the delays (ms) of outstanding
`setTimeout(() => connectBot(botId), …)` reconnect timers, how many transport
handles were ever created, and the statuses sent to the Python service via
`notifyPython`. -/
structure BotState where
  conn : Option ConnEntry
  sessionOnDisk : Bool
  pendingReconnects : List Nat
  handlesCreated : Nat
  notifications : List String
deriving DecidableEq, Repr

/-- The entry created at lines 48-50:
`connections[botId] = { socket: null, status: 'disconnected', qr: null }`. -/
def freshEntry : ConnEntry :=
  { socket := none, status := Status.disconnected, qr := none }

/-- `connectBot(botId)`, lines 42-61: `useMultiFileAuthState` ensures the auth
directory exists, the entry is created if absent, `makeWASocket` builds a new
transport handle and it is stored in `connections[botId].socket`.  The status
field is NOT touched (the source has no `'connecting'` assignment). -/
def connectBot (s : BotState) : BotState :=
  let c := s.conn.getD freshEntry
  { s with
    conn := some { c with socket := some s.handlesCreated },
    sessionOnDisk := true,
    handlesCreated := s.handlesCreated + 1 }

/-- Baileys `DisconnectReason.loggedOut` (HTTP status code 401). -/
def loggedOut : Nat := 401

/-- `connection.update` with a `qr` field, lines 67-77 (successful
`QRCode.toDataURL` path): store the image, set status `waiting_qr`. -/
def onQR (s : BotState) (qrImage : String) : BotState :=
  match s.conn with
  | none => s
  | some c =>
      { s with conn := some { c with qr := some qrImage, status := Status.waiting_qr } }

/-- `connection === 'open'`, lines 79-86: status `connected`, QR cleared,
`notifyPython(botId, 'connected')`. -/
def onOpen (s : BotState) : BotState :=
  match s.conn with
  | none => s
  | some c =>
      { s with
        conn := some { c with status := Status.connected, qr := none },
        notifications := s.notifications ++ ["connected"] }

/-- `connection === 'close'`, lines 88-107.  `reason` is
`lastDisconnect?.error?.output?.statusCode` (`none` models `undefined`);
`shouldReconnect = reason !== DisconnectReason.loggedOut`.  Both branches set
status `disconnected` and clear `qr`; neither clears `socket`.  The transient
branch appends one `setTimeout(connectBot, 5000)`; the logout branch removes
the session directory and sends `notifyPython(botId, 'disconnected')`. -/
def onClose (s : BotState) (reason : Option Nat) : BotState :=
  match s.conn with
  | none => s
  | some c =>
      let base :=
        { s with conn := some { c with status := Status.disconnected, qr := none } }
      if reason ≠ some loggedOut then
        { base with pendingReconnects := base.pendingReconnects ++ [5000] }
      else
        { base with
          sessionOnDisk := false,
          notifications := base.notifications ++ ["disconnected"] }

/-- One outstanding reconnect timer fires: its callback runs
`connectBot(botId)` (line 98).  Nothing in the source ever cancels such a
timer. -/
def fireReconnect (s : BotState) : BotState :=
  match s.pendingReconnects with
  | [] => s
  | _ :: rest => connectBot { s with pendingReconnects := rest }

/-- `POST /wa/disconnect/:botId`, lines 234-257.  All effects are guarded by
`if (conn?.socket)`: only when the entry exists AND holds a socket does the
handler logout/end the socket, set status `disconnected`, clear `qr` and
`socket`, and remove the auth directory.  Otherwise it only replies
`{success: true}` and changes nothing. -/
def disconnect (s : BotState) : BotState :=
  match s.conn with
  | none => s
  | some c =>
      match c.socket with
      | none => s
      | some _ =>
          { s with
            conn := some { c with socket := none, status := Status.disconnected, qr := none },
            sessionOnDisk := false }

end WaMonitor

namespace WaMonitor

/-! ### Message pipeline (`messages.upsert` handler, lines 114-171) -/

/-- `msg.message.extendedTextMessage` (the `.text` field). -/
structure ExtendedTextMessage where
  text : Option String
deriving DecidableEq, Repr

/-- `msg.message.imageMessage` (only the `.caption` field is read). -/
structure ImageMessage where
  caption : Option String
deriving DecidableEq, Repr

/-- `msg.message.videoMessage` (only the `.caption` field is read). -/
structure VideoMessage where
  caption : Option String
deriving DecidableEq, Repr

/-- The content shapes of `msg.message` the source reads (lines 126-130,
160). -/
structure MessageContent where
  conversation : Option String
  extendedTextMessage : Option ExtendedTextMessage
  imageMessage : Option ImageMessage
  videoMessage : Option VideoMessage
deriving DecidableEq, Repr

/-- `msg.key`: `remoteJid` (`none` models `undefined`), `fromMe`,
`participant`. -/
structure MessageKey where
  remoteJid : Option String
  fromMe : Bool
  participant : Option String
deriving DecidableEq, Repr

/-- A raw transport message as consumed by the handler. -/
structure RawMessage where
  key : MessageKey
  message : Option MessageContent
  messageTimestamp : Nat
deriving DecidableEq, Repr

/-- JavaScript `a || b` restricted to string-valued operands: an absent value
(`undefined`) and the empty string are falsy, any other string is truthy. -/
def jsOr (a b : Option String) : Option String :=
  match a with
  | some s => if s = "" then b else some s
  | none => b

/-- JavaScript truthiness of an optional string: `some s` when `s` is a
non-empty string, `none` otherwise. -/
def truthy (a : Option String) : Option String :=
  match a with
  | some s => if s = "" then none else some s
  | none => none

/-- `msg.message?.conversation`. -/
def convOf (m : RawMessage) : Option String :=
  m.message.bind MessageContent.conversation

/-- `msg.message?.extendedTextMessage?.text`. -/
def extOf (m : RawMessage) : Option String :=
  m.message.bind fun c => c.extendedTextMessage.bind ExtendedTextMessage.text

/-- `msg.message?.imageMessage?.caption`. -/
def imgOf (m : RawMessage) : Option String :=
  m.message.bind fun c => c.imageMessage.bind ImageMessage.caption

/-- `msg.message?.videoMessage?.caption`. -/
def vidOf (m : RawMessage) : Option String :=
  m.message.bind fun c => c.videoMessage.bind VideoMessage.caption

/-- Lines 126-130: `msg.message?.conversation || …extendedTextMessage?.text
|| …imageMessage?.caption || …videoMessage?.caption || ''`. -/
def extractText (m : RawMessage) : String :=
  (jsOr (convOf m) (jsOr (extOf m) (jsOr (imgOf m) (vidOf m)))).getD ""

/-- JavaScript `s.endsWith(suffix)`: the character sequence of `suffix` is a
suffix of that of `s`. -/
def jsEndsWith (s suffix : String) : Bool :=
  List.isSuffixOf suffix.data s.data

/-- `msg.key.remoteJid?.endsWith('@g.us')` — `false` when `remoteJid` is
absent (optional chaining yields `undefined`, which is falsy). -/
def isGroupJid (j : Option String) : Bool :=
  match j with
  | some s => jsEndsWith s "@g.us"
  | none => false

/-- The four early-`continue` filters of lines 115-132, as one predicate: the
message survives iff the jid is a group jid, it is not `fromMe`, it is not the
status broadcast, and the extracted text is non-empty with length ≥ 5. -/
def passesFilters (m : RawMessage) : Bool :=
  isGroupJid m.key.remoteJid
    && !m.key.fromMe
    && m.key.remoteJid != some "status@broadcast"
    && extractText m != ""
    && decide (5 ≤ (extractText m).length)

/-- Result of `sock.groupMetadata(jid)` on success; only `.subject` is read. -/
structure GroupMetadata where
  subject : String
deriving DecidableEq, Repr

/-- Lines 134-141: `groupName = msg.key.remoteJid; try { metadata = await
sock.groupMetadata(…); groupName = metadata.subject || msg.key.remoteJid }
catch { }`.  The metadata query is modelled as a function to
`Option GroupMetadata`, `none` being a thrown error; the definition is total,
so resolution never raises. -/
def resolveGroupName (gm : String → Option GroupMetadata) (jid : String) : String :=
  match gm jid with
  | some md => if md.subject = "" then jid else md.subject
  | none => jid

/-- Line 144: `const sender = msg.key.participant || msg.key.remoteJid`.  On
the forwarding path `remoteJid` is always a present group jid, so the model
reads it with default `""`. -/
def senderOf (k : MessageKey) : String :=
  match k.participant with
  | some p => if p = "" then k.remoteJid.getD "" else p
  | none => k.remoteJid.getD ""

/-- Line 160: `!!(msg.message?.imageMessage || msg.message?.videoMessage)`. -/
def hasMedia (m : RawMessage) : Bool :=
  (m.message.bind MessageContent.imageMessage).isSome
    || (m.message.bind MessageContent.videoMessage).isSome

/-- JavaScript `parseInt(s)` with no radix argument: skip leading whitespace,
optional sign, optional `0x`/`0X` hex prefix, then the longest run of digits
of the radix; no digits at all gives `NaN`, modelled as `none` (and
`JSON.stringify` serializes `NaN` as `null`). -/
def isBaseDigit (base : Nat) (c : Char) : Bool :=
  if base = 16 then
    c.isDigit || ('a' ≤ c && c ≤ 'f') || ('A' ≤ c && c ≤ 'F')
  else
    c.isDigit

/-- Numeric value of a (hex) digit character. -/
def digitVal (c : Char) : Nat :=
  if c.isDigit then c.toNat - '0'.toNat
  else if 'a' ≤ c && c ≤ 'f' then c.toNat - 'a'.toNat + 10
  else if 'A' ≤ c && c ≤ 'F' then c.toNat - 'A'.toNat + 10
  else 0

/-- See `isBaseDigit`; this is the JavaScript `parseInt(s)` model itself. -/
def parseIntJS (s : String) : Option Int :=
  let cs := s.data.dropWhile fun c => c == ' ' || c == '\t' || c == '\n' || c == '\r'
  let signed : Int × List Char :=
    match cs with
    | '-' :: r => (-1, r)
    | '+' :: r => (1, r)
    | _ => (1, cs)
  let based : Nat × List Char :=
    match signed.2 with
    | '0' :: 'x' :: r => (16, r)
    | '0' :: 'X' :: r => (16, r)
    | _ => (10, signed.2)
  let ds := based.2.takeWhile (isBaseDigit based.1)
  if ds.isEmpty then none
  else some (signed.1 * (ds.foldl (fun a c => a * based.1 + digitVal c) 0 : Nat))

/-- Body of the `POST /api/wa-promo` call (lines 153-161).  `bot_id` is
`parseInt(botId)` (`none` = `NaN`, serialized `null`). -/
structure PromoPayload where
  bot_id : Option Int
  group_name : String
  group_jid : String
  sender : String
  text : String
  timestamp : Nat
  has_media : Bool
deriving DecidableEq, Repr

/-- Body of the `POST /api/wa-status` call (line 182). -/
structure StatusPayload where
  bot_id : Option Int
  status : String
deriving DecidableEq, Repr

/-- The payload built for one forwarded message (lines 153-161). -/
def mkPromoPayload (botId : String) (gm : String → Option GroupMetadata)
    (m : RawMessage) : PromoPayload :=
  let jid := m.key.remoteJid.getD ""
  { bot_id := parseIntJS botId
    group_name := resolveGroupName gm jid
    group_jid := jid
    sender := senderOf m.key
    text := extractText m
    timestamp := m.messageTimestamp
    has_media := hasMedia m }

/-- The `messages.upsert` handler (lines 114-171): with batch type other than
`'notify'` nothing is forwarded; otherwise each message of the batch that
survives the filters produces exactly one `/api/wa-promo` payload. -/
def processUpsert (botId : String) (gm : String → Option GroupMetadata)
    (batchType : String) (messages : List RawMessage) : List PromoPayload :=
  if batchType != "notify" then []
  else (messages.filter passesFilters).map (mkPromoPayload botId gm)

/-- The body sent by `notifyPython(botId, status)` (lines 177-187). -/
def notifyPython (botId : String) (status : String) : StatusPayload :=
  { bot_id := parseIntJS botId, status := status }

end WaMonitor

namespace WaMonitor

/-! ### Claims about the connection lifecycle -/

/-- A convenient concrete start state: identity never referenced, nothing on
disk. -/
def initialState : BotState :=
  { conn := none, sessionOnDisk := false, pendingReconnects := [],
    handlesCreated := 0, notifications := [] }

/-- C1: the claim says an outstanding reconnect timer is invalidated by
`disconnect` and no new transport handle is created afterwards.  The source
stores no timer handle and cancels nothing: evaluating the code model on the
trace connect → transient close → disconnect shows the timer is still
outstanding after the disconnect, and when it fires, `connectBot` runs and
installs a fresh transport handle for the just-disconnected identity. -/
theorem C1_disconnect_does_not_cancel_reconnect :
    (disconnect (onClose (connectBot initialState) (some 428))).pendingReconnects = [5000] ∧
    ((disconnect (onClose (connectBot initialState) (some 428))).conn.getD freshEntry).socket = none ∧
    ((fireReconnect (disconnect (onClose (connectBot initialState) (some 428)))).conn.getD freshEntry).socket = some 1 ∧
    (fireReconnect (disconnect (onClose (connectBot initialState) (some 428)))).handlesCreated =
      (disconnect (onClose (connectBot initialState) (some 428))).handlesCreated + 1 := by
  decide

/-- C2 counterexample: an identity whose persisted session exists on disk but
which has no `connections` entry (e.g. a saved session before any connect in
this process).  The claim says `disconnect` always deletes the persisted
SessionRecord; the handler's `if (conn?.socket)` guard skips every effect, so
the session material survives and the state is untouched. -/
theorem C2_counterexample :
    (disconnect { conn := none, sessionOnDisk := true, pendingReconnects := [],
                  handlesCreated := 0, notifications := [] }).sessionOnDisk = true := by
  decide

/-- C2 amended: when a transport handle exists, `disconnect` sets status
`disconnected`, clears the handle and the pending QR, and deletes the
persisted SessionRecord; when no entry or no handle exists, it changes
nothing. -/
theorem C2_disconnect_effects (s : BotState) :
    (∀ c h, s.conn = some c → c.socket = some h →
        (disconnect s).conn = some { socket := none, status := Status.disconnected, qr := none } ∧
        (disconnect s).sessionOnDisk = false) ∧
    (s.conn = none ∨ (∃ c, s.conn = some c ∧ c.socket = none) → disconnect s = s) := by
  constructor
  · intro c h hc hs
    simp [disconnect, hc, hs]
  · intro hcase
    rcases hcase with h | ⟨c, hc, hs⟩
    · simp [disconnect, h]
    · simp [disconnect, hc, hs]

/-- Witness for `C2_disconnect_effects` at a concrete connected state. -/
theorem C2_disconnect_effects_witness :
    (disconnect { conn := some { socket := some 0, status := Status.connected, qr := none },
                  sessionOnDisk := true, pendingReconnects := [], handlesCreated := 1,
                  notifications := ["connected"] }).conn =
      some { socket := none, status := Status.disconnected, qr := none } ∧
    (disconnect { conn := some { socket := some 0, status := Status.connected, qr := none },
                  sessionOnDisk := true, pendingReconnects := [], handlesCreated := 1,
                  notifications := ["connected"] }).sessionOnDisk = false :=
  (C2_disconnect_effects _).1 _ 0 rfl rfl

/-- C3 counterexample: a transient close (reason 428, connection lost) on a
connected state.  The claim says the transport handle is cleared; the source's
close handler never writes `connections[botId].socket`, so the handle is still
there afterwards. -/
theorem C3_counterexample :
    ((onClose { conn := some { socket := some 0, status := Status.connected, qr := none },
                sessionOnDisk := true, pendingReconnects := [], handlesCreated := 1,
                notifications := ["connected"] } (some 428)).conn.getD freshEntry).socket
      = some 0 := by
  decide

/-- C3 amended: a close event with a non-logout reason sets status
`disconnected`, clears the pending QR but leaves the transport handle
reference in place, schedules exactly one reconnect with the fixed 5000 ms
delay, and does not delete persisted session material. -/
theorem C3_transient_close (s : BotState) (c : ConnEntry) (r : Option Nat)
    (hc : s.conn = some c) (hr : r ≠ some loggedOut) :
    (onClose s r).conn = some { c with status := Status.disconnected, qr := none } ∧
    (onClose s r).pendingReconnects = s.pendingReconnects ++ [5000] ∧
    (onClose s r).sessionOnDisk = s.sessionOnDisk ∧
    (onClose s r).notifications = s.notifications := by
  simp [onClose, hc, hr]

/-- Witness for `C3_transient_close`: reason 428 on a concrete connected
state. -/
theorem C3_transient_close_witness :
    (onClose { conn := some { socket := some 0, status := Status.connected, qr := none },
               sessionOnDisk := true, pendingReconnects := [], handlesCreated := 1,
               notifications := [] } (some 428)).conn =
      some { socket := some 0, status := Status.disconnected, qr := none } ∧
    (onClose { conn := some { socket := some 0, status := Status.connected, qr := none },
               sessionOnDisk := true, pendingReconnects := [], handlesCreated := 1,
               notifications := [] } (some 428)).pendingReconnects = [] ++ [5000] ∧
    (onClose { conn := some { socket := some 0, status := Status.connected, qr := none },
               sessionOnDisk := true, pendingReconnects := [], handlesCreated := 1,
               notifications := [] } (some 428)).sessionOnDisk = true ∧
    (onClose { conn := some { socket := some 0, status := Status.connected, qr := none },
               sessionOnDisk := true, pendingReconnects := [], handlesCreated := 1,
               notifications := [] } (some 428)).notifications = [] := by
  have h := C3_transient_close
    { conn := some { socket := some 0, status := Status.connected, qr := none },
      sessionOnDisk := true, pendingReconnects := [], handlesCreated := 1,
      notifications := [] }
    { socket := some 0, status := Status.connected, qr := none }
    (some 428) rfl (by decide)
  exact h

/-- C4 counterexample: a logout close (reason 401) on a connected state.  The
claim says the transport handle is cleared; the close handler never writes
`connections[botId].socket`, so the handle reference survives. -/
theorem C4_counterexample :
    ((onClose { conn := some { socket := some 0, status := Status.connected, qr := none },
                sessionOnDisk := true, pendingReconnects := [], handlesCreated := 1,
                notifications := ["connected"] } (some 401)).conn.getD freshEntry).socket
      = some 0 := by
  decide

/-- C4 amended: a close event with the logout reason sets status
`disconnected`, clears the pending QR (the transport handle reference is left
in place), deletes the persisted SessionRecord, notifies the downstream
collaborator of "disconnected", and schedules no reconnect. -/
theorem C4_logout_close (s : BotState) (c : ConnEntry) (hc : s.conn = some c) :
    (onClose s (some loggedOut)).conn = some { c with status := Status.disconnected, qr := none } ∧
    (onClose s (some loggedOut)).sessionOnDisk = false ∧
    (onClose s (some loggedOut)).notifications = s.notifications ++ ["disconnected"] ∧
    (onClose s (some loggedOut)).pendingReconnects = s.pendingReconnects := by
  simp [onClose, hc]

/-- Witness for `C4_logout_close` at a concrete connected state. -/
theorem C4_logout_close_witness :
    (onClose { conn := some { socket := some 0, status := Status.connected, qr := none },
               sessionOnDisk := true, pendingReconnects := [], handlesCreated := 1,
               notifications := [] } (some loggedOut)).conn =
      some { socket := some 0, status := Status.disconnected, qr := none } ∧
    (onClose { conn := some { socket := some 0, status := Status.connected, qr := none },
               sessionOnDisk := true, pendingReconnects := [], handlesCreated := 1,
               notifications := [] } (some loggedOut)).sessionOnDisk = false ∧
    (onClose { conn := some { socket := some 0, status := Status.connected, qr := none },
               sessionOnDisk := true, pendingReconnects := [], handlesCreated := 1,
               notifications := [] } (some loggedOut)).notifications = [] ++ ["disconnected"] ∧
    (onClose { conn := some { socket := some 0, status := Status.connected, qr := none },
               sessionOnDisk := true, pendingReconnects := [], handlesCreated := 1,
               notifications := [] } (some loggedOut)).pendingReconnects = [] :=
  C4_logout_close _ { socket := some 0, status := Status.connected, qr := none } rfl

/-- C5 counterexample: `connectBot` on a never-referenced identity.  The claim
says the status is set to `connecting` after constructing the transport and
registering subscriptions; the source never assigns `'connecting'`, so the
fresh entry's status is still `disconnected`. -/
theorem C5_counterexample :
    ((connectBot initialState).conn.getD freshEntry).status = Status.disconnected ∧
    ((connectBot initialState).conn.getD freshEntry).status ≠ Status.connecting := by
  decide

/-- C5 amended: `start(identity)` creates the registry entry if absent and
installs a new transport handle, but never changes the status field: the
status after `connectBot` equals the status before (a fresh entry being
`disconnected`); only connection events move it. -/
theorem C5_start_keeps_status (s : BotState) :
    ((connectBot s).conn.getD freshEntry).status = (s.conn.getD freshEntry).status ∧
    freshEntry.status = Status.disconnected ∧
    ((connectBot s).conn.getD freshEntry).socket = some s.handlesCreated := by
  cases h : s.conn <;> simp [connectBot, freshEntry, h]

end WaMonitor

namespace WaMonitor

/-! ### Claims about the message pipeline -/

/-- Helper: when the first operand of a JavaScript `||` is truthy, it wins. -/
theorem jsOr_of_truthy_some (a b : Option String) (s : String) (h : truthy a = some s) :
    jsOr a b = some s := by
  cases a with
  | none => exact absurd h (by simp [truthy])
  | some t =>
      by_cases ht : t = ""
      · simp [truthy, ht] at h
      · simp [truthy, ht] at h
        subst h
        simp [jsOr, ht]

/-- Helper: when the first operand of a JavaScript `||` is falsy, the second
operand is the result. -/
theorem jsOr_of_truthy_none (a b : Option String) (h : truthy a = none) :
    jsOr a b = b := by
  cases a with
  | none => simp [jsOr]
  | some t =>
      by_cases ht : t = ""
      · simp [jsOr, ht]
      · simp [truthy, ht] at h

/-- Helper: a message whose extracted text is shorter than 5 characters fails
the filter predicate. -/
theorem passesFilters_of_short (m : RawMessage) (h : (extractText m).length < 5) :
    passesFilters m = false := by
  simp only [passesFilters, Bool.and_eq_false_iff]
  right
  simpa using Nat.not_le.mpr h

/-- C6: a `fromMe` message is never forwarded; a message whose jid is not a
group jid (direct chat, absent jid) is never forwarded; a message whose
extracted text is shorter than 5 characters (length 4, empty, …) is never
forwarded; and a message of a `notify` batch passing all the filters with
extracted text of length 5 is forwarded exactly once. -/
theorem C6_filtering (bi : String) (gm : String → Option GroupMetadata)
    (ty : String) (m : RawMessage) :
    (m.key.fromMe = true → processUpsert bi gm ty [m] = []) ∧
    (isGroupJid m.key.remoteJid = false → processUpsert bi gm ty [m] = []) ∧
    ((extractText m).length < 5 → processUpsert bi gm ty [m] = []) ∧
    (ty = "notify" → passesFilters m = true → (extractText m).length = 5 →
        (processUpsert bi gm ty [m]).length = 1) := by
  refine ⟨?_, ?_, ?_, ?_⟩
  · intro h
    by_cases hty : ty = "notify"
    · subst hty
      simp [processUpsert, passesFilters, h]
    · simp [processUpsert, bne_iff_ne, hty]
  · intro h
    by_cases hty : ty = "notify"
    · subst hty
      simp [processUpsert, passesFilters, h]
    · simp [processUpsert, bne_iff_ne, hty]
  · intro h
    by_cases hty : ty = "notify"
    · subst hty
      simp [processUpsert, List.filter, passesFilters_of_short m h]
    · simp [processUpsert, bne_iff_ne, hty]
  · intro hty hpf _
    subst hty
    simp [processUpsert, List.filter, hpf]

/-- Witness for `C6_filtering`: a non-self group message with text "hello"
(length 5) of a notify batch is forwarded exactly once. -/
theorem C6_filtering_witness :
    (processUpsert "1" (fun _ => none) "notify"
      [{ key := { remoteJid := some "g1@g.us", fromMe := false,
                  participant := some "p@s.whatsapp.net" },
         message := some { conversation := some "hello", extendedTextMessage := none,
                           imageMessage := none, videoMessage := none },
         messageTimestamp := 0 }]).length = 1 :=
  (C6_filtering "1" (fun _ => none) "notify" _).2.2.2 rfl (by decide) (by decide)

/-- C7: extraction tries plain text body, extended text body, image caption,
video caption, in that order; the first truthy (present and non-empty) one
wins — in particular a truthy plain text body wins unconditionally — and when
all four are absent or empty the extracted text is `""` and the message is
dropped (forwarded to no one). -/
theorem C7_extraction_priority (m : RawMessage) :
    (∀ s, truthy (convOf m) = some s → extractText m = s) ∧
    (truthy (convOf m) = none → ∀ s, truthy (extOf m) = some s → extractText m = s) ∧
    (truthy (convOf m) = none → truthy (extOf m) = none →
        ∀ s, truthy (imgOf m) = some s → extractText m = s) ∧
    (truthy (convOf m) = none → truthy (extOf m) = none → truthy (imgOf m) = none →
        ∀ s, truthy (vidOf m) = some s → extractText m = s) ∧
    (truthy (convOf m) = none → truthy (extOf m) = none → truthy (imgOf m) = none →
        truthy (vidOf m) = none →
        extractText m = "" ∧ ∀ bi gm, processUpsert bi gm "notify" [m] = []) := by
  refine ⟨?_, ?_, ?_, ?_, ?_⟩
  · intro s h
    rw [extractText, jsOr_of_truthy_some _ _ _ h, Option.getD_some]
  · intro h1 s h
    rw [extractText, jsOr_of_truthy_none _ _ h1, jsOr_of_truthy_some _ _ _ h,
      Option.getD_some]
  · intro h1 h2 s h
    rw [extractText, jsOr_of_truthy_none _ _ h1, jsOr_of_truthy_none _ _ h2,
      jsOr_of_truthy_some _ _ _ h, Option.getD_some]
  · intro h1 h2 h3 s h
    rw [extractText, jsOr_of_truthy_none _ _ h1, jsOr_of_truthy_none _ _ h2,
      jsOr_of_truthy_none _ _ h3]
    cases hv : vidOf m with
    | none =>
        rw [hv] at h
        simp [truthy] at h
    | some t =>
        rw [hv] at h
        by_cases ht : t = ""
        · simp [truthy, ht] at h
        · simp [truthy, ht] at h
          simp [h]
  · intro h1 h2 h3 h4
    have he : extractText m = "" := by
      rw [extractText, jsOr_of_truthy_none _ _ h1, jsOr_of_truthy_none _ _ h2,
        jsOr_of_truthy_none _ _ h3]
      cases hv : vidOf m with
      | none => rfl
      | some t =>
          by_cases ht : t = ""
          · simp [hv, ht]
          · rw [hv] at h4
            simp [truthy, ht] at h4
    refine ⟨he, fun bi gm => ?_⟩
    have hpf : passesFilters m = false := by
      apply passesFilters_of_short
      rw [he]
      decide
    simp [processUpsert, List.filter, hpf]

/-- Witness for `C7_extraction_priority`: a message carrying both a plain text
body and an image caption extracts the plain text body. -/
theorem C7_extraction_priority_witness :
    extractText
      { key := { remoteJid := some "g1@g.us", fromMe := false, participant := none },
        message := some { conversation := some "hello there",
                          extendedTextMessage := none,
                          imageMessage := some { caption := some "a caption" },
                          videoMessage := none },
        messageTimestamp := 0 } = "hello there" :=
  (C7_extraction_priority _).1 "hello there" (by decide)

/-- C8 counterexample: a metadata query that SUCCEEDS but returns an empty
display name.  The claim says the returned display name is used on success;
the source computes `metadata.subject || msg.key.remoteJid`, so the payload's
`group_name` is the raw jid, not the returned (empty) display name. -/
theorem C8_counterexample :
    (mkPromoPayload "1" (fun _ => some { subject := "" })
      { key := { remoteJid := some "g1@g.us", fromMe := false, participant := none },
        message := some { conversation := some "hello there", extendedTextMessage := none,
                          imageMessage := none, videoMessage := none },
        messageTimestamp := 0 }).group_name = "g1@g.us" := by
  decide

/-- C8 amended: group-name resolution is a total function (never raises or
aborts the pipeline); on a successful metadata query the returned display name
is used when it is non-empty, and when the query returns an empty display name
or fails, the forwarded payload's `group_name` is the raw conversation id. -/
theorem C8_group_name (gm : String → Option GroupMetadata) (bi jid : String)
    (m : RawMessage) (hj : m.key.remoteJid = some jid) :
    (mkPromoPayload bi gm m).group_name = resolveGroupName gm jid ∧
    (∀ md, gm jid = some md → md.subject ≠ "" → resolveGroupName gm jid = md.subject) ∧
    (∀ md, gm jid = some md → md.subject = "" → resolveGroupName gm jid = jid) ∧
    (gm jid = none → resolveGroupName gm jid = jid) := by
  refine ⟨?_, ?_, ?_, ?_⟩
  · simp [mkPromoPayload, hj]
  · intro md h hne
    simp [resolveGroupName, h, hne]
  · intro md h he
    simp [resolveGroupName, h, he]
  · intro h
    simp [resolveGroupName, h]

/-- Witness for `C8_group_name`: a failing metadata query makes `group_name`
the raw jid. -/
theorem C8_group_name_witness :
    (mkPromoPayload "1" (fun _ => none)
      { key := { remoteJid := some "g2@g.us", fromMe := false, participant := none },
        message := some { conversation := some "hello there", extendedTextMessage := none,
                          imageMessage := none, videoMessage := none },
        messageTimestamp := 0 }).group_name = resolveGroupName (fun _ => none) "g2@g.us" ∧
    resolveGroupName (fun _ : String => (none : Option GroupMetadata)) "g2@g.us" = "g2@g.us" :=
  ⟨(C8_group_name (fun _ => none) "1" "g2@g.us" _ rfl).1,
   (C8_group_name (fun _ => none) "1" "g2@g.us"
      { key := { remoteJid := some "g2@g.us", fromMe := false, participant := none },
        message := some { conversation := some "hello there", extendedTextMessage := none,
                          imageMessage := none, videoMessage := none },
        messageTimestamp := 0 } rfl).2.2.2 rfl⟩

/-- C9 counterexample: the identity id is an operator-chosen string; for the
identity `"abc"`, `parseInt("abc")` is `NaN` (modelled `none`, serialized as
`null`), so the `bot_id` field sent to both endpoints is not an integer. -/
theorem C9_counterexample :
    (notifyPython "abc" "connected").bot_id = none ∧
    (mkPromoPayload "abc" (fun _ => none)
      { key := { remoteJid := some "g1@g.us", fromMe := false, participant := none },
        message := some { conversation := some "hello there", extendedTextMessage := none,
                          imageMessage := none, videoMessage := none },
        messageTimestamp := 0 }).bot_id = none := by
  decide

/-- C9 amended: the `bot_id` field sent to `/wa-promo` and `/wa-status` is
always `parseInt(identity)`: an integer exactly when the identity string
carries a parsable leading integer, and `NaN` (serialized `null`) for other
operator-chosen strings. -/
theorem C9_bot_id (bi st : String) (gm : String → Option GroupMetadata)
    (m : RawMessage) :
    (notifyPython bi st).bot_id = parseIntJS bi ∧
    (mkPromoPayload bi gm m).bot_id = parseIntJS bi :=
  ⟨rfl, rfl⟩

/-- C10: for a forwarded group message, the payload's `sender` is the raw
message's `participant` when present and non-empty, and otherwise the group
conversation id. -/
theorem C10_sender (bi jid : String) (gm : String → Option GroupMetadata)
    (m : RawMessage) (hj : m.key.remoteJid = some jid) :
    (∀ p, m.key.participant = some p → p ≠ "" → (mkPromoPayload bi gm m).sender = p) ∧
    (m.key.participant = none ∨ m.key.participant = some "" →
        (mkPromoPayload bi gm m).sender = jid) := by
  constructor
  · intro p hp hne
    simp [mkPromoPayload, senderOf, hp, hne]
  · intro h
    rcases h with h | h <;> simp [mkPromoPayload, senderOf, h, hj]

/-- Witness for `C10_sender`: a concrete message with a non-empty participant
and one without. -/
theorem C10_sender_witness :
    (mkPromoPayload "1" (fun _ => none)
      { key := { remoteJid := some "g1@g.us", fromMe := false,
                 participant := some "p@s.whatsapp.net" },
        message := some { conversation := some "hello there", extendedTextMessage := none,
                          imageMessage := none, videoMessage := none },
        messageTimestamp := 0 }).sender = "p@s.whatsapp.net" ∧
    (mkPromoPayload "1" (fun _ => none)
      { key := { remoteJid := some "g1@g.us", fromMe := false, participant := none },
        message := some { conversation := some "hello there", extendedTextMessage := none,
                          imageMessage := none, videoMessage := none },
        messageTimestamp := 0 }).sender = "g1@g.us" :=
  ⟨(C10_sender "1" "g1@g.us" (fun _ => none) _ rfl).1 "p@s.whatsapp.net" rfl (by decide),
   (C10_sender "1" "g1@g.us" (fun _ => none) _ rfl).2 (Or.inl rfl)⟩

end WaMonitor
